import Mathlib

/-!
Verification of the per-frame simulation core of `src/main.rs` (the
SpaceWars repository): rocket movement (`handle_rocket_movement`), the
central-body gravity system (`gravitational_pull`), and the collision
handling of `update_rocket_status`.

Modelling conventions:
* `f32`/`f64` values are modelled as real numbers;
* Bevy's z-axis rotation quaternions are modelled by a plane angle, so
  `transform.rotation * Quat::from_rotation_z(a)` becomes angle addition and
  `transform.rotation * Vec3::Y` becomes the unit vector `(-sin θ, cos θ)`;
* the `Rocket` component struct lives in `rocket.rs`, which is not part of the
  sources at hand; its fields are taken from their uses in `main.rs` and from
  the spec's data model (`speed`, `max_speed`, `velocity`, `rotation_speed`,
  `radius_collision`, plus the key bindings, modelled as the pressed state of
  the three movement keys);
* Bevy `Commands::despawn` calls and particle-effect triggers
  (`EffectProperties::set` / `EffectInitializers::reset` at a position) are
  recorded as lists, in program order; despawn commands are deferred, so the
  movement loop at the end of `update_rocket_status` still runs for every
  rocket of the frame;
* the model describes the post-startup state in which the single
  particle-effect entity spawned by `setup` exists, so the
  `effect.get_single_mut()` early return does not fire.
-/

noncomputable section

open Classical

/-- Plane vector, modelling glam's `Vec2` over the reals. -/
structure Vec2 where
  x : ℝ
  y : ℝ

/-- Componentwise vector addition. -/
def Vec2.add (u v : Vec2) : Vec2 := ⟨u.x + v.x, u.y + v.y⟩

/-- Componentwise vector subtraction. -/
def Vec2.sub (u v : Vec2) : Vec2 := ⟨u.x - v.x, u.y - v.y⟩

/-- Multiplication of a vector by a scalar (`Vec2 * f32`). -/
def Vec2.smul (v : Vec2) (c : ℝ) : Vec2 := ⟨v.x * c, v.y * c⟩

/-- The zero vector (`Vec2::ZERO`). -/
def Vec2.zero : Vec2 := ⟨0, 0⟩

/-- Euclidean norm (`Vec2::length`). -/
def Vec2.length (v : Vec2) : ℝ := Real.sqrt (v.x ^ 2 + v.y ^ 2)

/-- Normalization (`Vec2::normalize`, i.e. `v * (1 / |v|)`). -/
def Vec2.normalize (v : Vec2) : Vec2 := v.smul (1 / v.length)

/-- Euclidean distance (`Vec2::distance`). -/
def Vec2.dist (u v : Vec2) : ℝ := (u.sub v).length

/-- Rust's `f32::clamp(lo, hi)`, i.e. `min (max x lo) hi`. -/
def rclamp (x lo hi : ℝ) : ℝ := min (max x lo) hi

/-- Rust's `f32::to_radians`. -/
def toRadians (d : ℝ) : ℝ := d * (Real.pi / 180)

/-- Unit heading vector obtained by rotating the `+Y` axis by `θ` about `Z`
(the value of `transform.rotation * Vec3::Y` in `handle_rocket_movement`). -/
def heading (θ : ℝ) : Vec2 := ⟨-Real.sin θ, Real.cos θ⟩

/-- Pressed state of one craft's movement keys
(`keys.pressed(rocket.controls.*)`). -/
structure Controls where
  accelerate : Bool
  rotate_left : Bool
  rotate_right : Bool

/-- The `Rocket` component (declared in `rocket.rs`, fields as used by
`main.rs` and described by the spec's data model). -/
structure Rocket where
  speed : ℝ
  max_speed : ℝ
  velocity : Vec2
  rotation_speed : ℝ
  radius_collision : ℝ

/-- The part of a Bevy `Transform` the simulation uses: 2D translation and
the z-rotation angle. -/
structure Transform where
  position : Vec2
  rotation : ℝ

/-- Lines 67–74 of `main.rs`: craft-craft collision test. -/
def check_collision (rocket1 rocket2 : Transform) (radius_collison : ℝ) : Prop :=
  rocket1.position.dist rocket2.position < radius_collison

/-- Lines 76–79 of `main.rs`: craft-sun collision test against the origin. -/
def check_sun_collision (rocket : Transform) (radius_collision : ℝ) : Prop :=
  rocket.position.dist (Vec2.mk 0 0) < radius_collision

/-- Lines 226–265 of `main.rs`: thrust update, rotation update with clamp,
orientation update, heading-derived velocity, and position integration for one
craft. -/
def handle_rocket_movement (dt : ℝ) (keys : Controls) (rocket : Rocket)
    (transform : Transform) : Rocket × Transform :=
  let speed : ℝ :=
    if keys.accelerate then
      (if rocket.speed < rocket.max_speed then rocket.speed + 50 * dt else rocket.speed)
    else
      (if rocket.speed > 0 then rocket.speed - 50 * dt else rocket.speed)
  let rotation_input : ℝ :=
    (if keys.rotate_left then 4 else 0) + (if keys.rotate_right then -4 else 0)
  let max_rotation_speed : ℝ := toRadians 70
  let rotation_acceleration : ℝ := toRadians (50 * dt)
  let rotation_speed : ℝ :=
    rclamp (rocket.rotation_speed + rotation_input * rotation_acceleration)
      (-max_rotation_speed) max_rotation_speed
  let rotation : ℝ := transform.rotation + rotation_speed * dt
  let velocity : Vec2 := (heading rotation).smul speed
  ⟨⟨speed, rocket.max_speed, velocity, rotation_speed, rocket.radius_collision⟩,
    ⟨transform.position.add (velocity.smul dt), rotation⟩⟩

/-- The gravitational constant `G_FORCE` of `gravitational_pull`. -/
def G_FORCE : ℝ := 125000000

/-- Lines 81–107 of `main.rs`, for one rocket: the gravity step. Inside the
65-unit cutoff the loop body `continue`s, leaving rocket and transform
untouched; otherwise the inverse-square acceleration is added to the velocity,
the velocity is re-clamped to `max_speed`, and the position is integrated. -/
def gravitational_pull (dt : ℝ) (rocket : Rocket) (transform : Transform) :
    Rocket × Transform :=
  let direction : Vec2 := Vec2.zero.sub transform.position
  let distance : ℝ := direction.length
  if distance < 65 then ⟨rocket, transform⟩
  else
    let force : ℝ := G_FORCE / (distance * distance)
    let acceleration : Vec2 := direction.normalize.smul force
    let velocity1 : Vec2 := rocket.velocity.add (acceleration.smul dt)
    let velocity : Vec2 :=
      if velocity1.length > rocket.max_speed then velocity1.normalize.smul rocket.max_speed
      else velocity1
    ⟨⟨rocket.speed, rocket.max_speed, velocity, rocket.rotation_speed,
        rocket.radius_collision⟩,
      ⟨transform.position.add (velocity.smul dt), transform.rotation⟩⟩

/-- The acceleration computed inside `gravitational_pull` (lines 88–97 of
`main.rs`): zero inside the 65-unit cutoff (where the loop body is skipped),
otherwise `normalize(direction) * (G_FORCE / distance²)` with
`direction = sun_position - rocket_position`. -/
def gravity_acceleration (p : Vec2) : Vec2 :=
  let direction : Vec2 := Vec2.zero.sub p
  let distance : ℝ := direction.length
  if distance < 65 then Vec2.zero
  else direction.normalize.smul (G_FORCE / (distance * distance))

/-- One frame of motion integration for a single craft: the movement part of
`update_rocket_status` followed by `gravitational_pull` (the two systems are
chained in this order in `main`). -/
def frameStep (dt : ℝ) (keys : Controls) (rocket : Rocket) (transform : Transform) :
    Rocket × Transform :=
  gravitational_pull dt (handle_rocket_movement dt keys rocket transform).1
    (handle_rocket_movement dt keys rocket transform).2

/-- A rocket entity as seen by the `update_rocket_status` query: entity id,
`Rocket` component, `Transform` component. -/
structure RocketEnt where
  id : Nat
  rocket : Rocket
  transform : Transform

/-- The externally visible effects of one `update_rocket_status` run: entity
ids passed to `Commands::despawn`, and effect triggers (position moved to,
color set, initializers reset), both in program order. -/
structure FrameOutput where
  despawned : List Nat
  triggers : List Vec2

/-- Collision handling of `update_rocket_status` (lines 284–337 of `main.rs`):
it runs only when more than one rocket is alive, checks the first two rockets
of the query against the sun (radius `radius_collision + 30`) and against each
other (radius of the first rocket only); a craft-craft hit triggers effects at
both positions and despawns every rocket of the query. -/
def update_collisions (rockets : List RocketEnt) : FrameOutput :=
  match rockets with
  | r1 :: r2 :: rest =>
      ⟨(if check_sun_collision r1.transform (r1.rocket.radius_collision + 30) then
            [r1.id] else [])
          ++ (if check_sun_collision r2.transform (r2.rocket.radius_collision + 30) then
            [r2.id] else [])
          ++ (if check_collision r1.transform r2.transform r1.rocket.radius_collision then
            r1.id :: r2.id :: rest.map RocketEnt.id else []),
        (if check_sun_collision r1.transform (r1.rocket.radius_collision + 30) then
            [r1.transform.position] else [])
          ++ (if check_sun_collision r2.transform (r2.rocket.radius_collision + 30) then
            [r2.transform.position] else [])
          ++ (if check_collision r1.transform r2.transform r1.rocket.radius_collision then
            [r1.transform.position, r2.transform.position] else [])⟩
  | _ => ⟨[], []⟩

/-- Lines 267–342 of `main.rs`: collision handling, then the movement loop
over every rocket of the query. Despawns are deferred commands, so the
movement loop still covers rockets despawned this frame. -/
def update_rocket_status (dt : ℝ) (input : Nat → Controls)
    (rockets : List RocketEnt) : FrameOutput × List RocketEnt :=
  ⟨update_collisions rockets,
    rockets.map fun e =>
      ⟨e.id, (handle_rocket_movement dt (input e.id) e.rocket e.transform).1,
        (handle_rocket_movement dt (input e.id) e.rocket e.transform).2⟩⟩

/-! ### Concrete inputs used by witnesses and counterexamples -/

/-- Key state with no key held. -/
def cKeysNone : Controls := ⟨false, false, false⟩

/-- Key state with only the accelerate key held. -/
def cKeysAccel : Controls := ⟨true, false, false⟩

/-- A craft at rest with `max_speed = 200` and `radius_collision = 20`. -/
def cRocketZero : Rocket := ⟨0, 200, Vec2.mk 0 0, 0, 20⟩

/-- A craft one speed unit below its `max_speed` of 200. -/
def cRocket199 : Rocket := ⟨199, 200, Vec2.mk 0 0, 0, 20⟩

/-- A craft with a small positive forward speed. -/
def cRocketOne : Rocket := ⟨1, 200, Vec2.mk 0 0, 0, 20⟩

/-- A transform 100 units above the origin, facing up. -/
def cT100 : Transform := ⟨Vec2.mk 0 100, 0⟩

/-- A transform 249 units below the origin, facing up. -/
def cTm249 : Transform := ⟨Vec2.mk 0 (-249), 0⟩

/-- A rocket entity sitting on the sun at the origin. -/
def cEntOrigin : RocketEnt := ⟨1, cRocketZero, ⟨Vec2.mk 0 0, 0⟩⟩

/-- A rocket entity with collision radius 20 at `(200, 0)`, far from the sun. -/
def cEntA : RocketEnt := ⟨1, cRocketZero, ⟨Vec2.mk 200 0, 0⟩⟩

/-- A rocket entity with collision radius 5 at `(210, 0)`: 10 units from
`cEntA`, inside `cEntA`'s radius but outside its own. -/
def cEntB : RocketEnt := ⟨2, ⟨0, 200, Vec2.mk 0 0, 0, 5⟩, ⟨Vec2.mk 210 0, 0⟩⟩

/-- A second rocket entity at the same position as `cEntA`, radius 20. -/
def cEntD : RocketEnt := ⟨2, cRocketZero, ⟨Vec2.mk 200 0, 0⟩⟩

/-- A rocket entity with collision radius 20 hovering 40 units above the sun
(inside the `radius_collision + 30` sun-collision range). -/
def cEntSun : RocketEnt := ⟨1, cRocketZero, ⟨Vec2.mk 0 40, 0⟩⟩

/-- A rocket entity with collision radius 20 at `(0, 300)`, far from both the
sun and `cEntSun`. -/
def cEntFar : RocketEnt := ⟨2, cRocketZero, ⟨Vec2.mk 0 300, 0⟩⟩

/-! ### Basic lemmas about the vector operations -/

theorem Vec2.length_nonneg (v : Vec2) : 0 ≤ v.length := Real.sqrt_nonneg _

theorem Vec2.length_mk_zero_left (y : ℝ) : (Vec2.mk 0 y).length = |y| := by
  rw [Vec2.length]
  norm_num [Real.sqrt_sq_eq_abs]

theorem Vec2.length_mk_zero_right (x : ℝ) : (Vec2.mk x 0).length = |x| := by
  rw [Vec2.length]
  norm_num [Real.sqrt_sq_eq_abs]

theorem Vec2.length_zero_sub (v : Vec2) : (Vec2.zero.sub v).length = v.length := by
  rw [Vec2.zero, Vec2.sub, Vec2.length, Vec2.length]
  ring_nf

theorem Vec2.length_smul (v : Vec2) (c : ℝ) : (v.smul c).length = v.length * |c| := by
  rw [Vec2.smul, Vec2.length, Vec2.length]
  have h : (v.x * c) ^ 2 + (v.y * c) ^ 2 = (v.x ^ 2 + v.y ^ 2) * c ^ 2 := by ring
  rw [h, Real.sqrt_mul (by positivity), Real.sqrt_sq_eq_abs]

theorem Vec2.length_pos_of_ne (v : Vec2) (h : v.length ≠ 0) : 0 < v.length :=
  lt_of_le_of_ne (Vec2.length_nonneg v) (Ne.symm h)

theorem Vec2.length_normalize (v : Vec2) (h : v.length ≠ 0) : v.normalize.length = 1 := by
  have hpos : 0 < v.length := Vec2.length_pos_of_ne v h
  rw [Vec2.normalize, Vec2.length_smul, abs_of_pos (by positivity)]
  field_simp

theorem Vec2.dist_self (v : Vec2) : v.dist v = 0 := by
  rw [Vec2.dist, Vec2.sub, Vec2.length]
  norm_num

theorem Vec2.smul_smul (v : Vec2) (a b : ℝ) : (v.smul a).smul b = v.smul (a * b) := by
  rw [Vec2.smul, Vec2.smul, Vec2.smul]
  simp [mul_assoc]

/-! ### Lemmas about the Rust `clamp` -/

theorem rclamp_le_hi (x lo hi : ℝ) : rclamp x lo hi ≤ hi := min_le_right _ _

theorem lo_le_rclamp (x lo hi : ℝ) (h : lo ≤ hi) : lo ≤ rclamp x lo hi :=
  le_min (le_max_right _ _) h

theorem rclamp_zero_of (lo hi : ℝ) (h1 : lo ≤ 0) (h2 : 0 ≤ hi) : rclamp 0 lo hi = 0 := by
  rw [rclamp, max_eq_left h1, min_eq_left h2]

theorem toRadians_70_nonneg : 0 ≤ toRadians 70 := by
  rw [toRadians]
  positivity

/-! ### Lemmas about the gravity step -/

theorem length_speed_limited (v : Vec2) (m : ℝ) (hm : 0 ≤ m) :
    (if v.length > m then v.normalize.smul m else v).length ≤ m := by
  by_cases h : v.length > m
  · rw [if_pos h]
    have hne : v.length ≠ 0 := by
      intro h0
      rw [h0] at h
      exact absurd h (not_lt.mpr hm)
    rw [Vec2.length_smul, Vec2.length_normalize v hne, one_mul, abs_of_nonneg hm]
  · rw [if_neg h]
    exact not_lt.mp h

theorem gravitational_pull_near (dt : ℝ) (rocket : Rocket) (transform : Transform)
    (hnear : transform.position.length < 65) :
    gravitational_pull dt rocket transform = (rocket, transform) := by
  have hlt : (Vec2.zero.sub transform.position).length < 65 := by
    rw [Vec2.length_zero_sub]
    exact hnear
  simp only [gravitational_pull, if_pos hlt]

theorem gravitational_pull_far_velocity (dt : ℝ) (rocket : Rocket)
    (transform : Transform) (hm : 0 ≤ rocket.max_speed)
    (hfar : 65 ≤ transform.position.length) :
    (gravitational_pull dt rocket transform).1.velocity.length ≤ rocket.max_speed := by
  have hnlt : ¬ (Vec2.zero.sub transform.position).length < 65 := by
    rw [Vec2.length_zero_sub]
    linarith
  simp only [gravitational_pull, if_neg hnlt]
  exact length_speed_limited _ _ hm

theorem gravitational_pull_far_position (dt : ℝ) (rocket : Rocket)
    (transform : Transform) (hfar : 65 ≤ transform.position.length) :
    (gravitational_pull dt rocket transform).2.position =
      transform.position.add
        ((gravitational_pull dt rocket transform).1.velocity.smul dt) := by
  have hnlt : ¬ (Vec2.zero.sub transform.position).length < 65 := by
    rw [Vec2.length_zero_sub]
    linarith
  simp only [gravitational_pull, if_neg hnlt]

/-! ### Evaluation of the movement and gravity steps at concrete inputs -/

theorem handle_none_rest_eval :
    handle_rocket_movement 1 cKeysNone cRocketZero cT100 = (cRocketZero, cT100) := by
  simp only [handle_rocket_movement, cKeysNone, cRocketZero, cT100]
  norm_num [rclamp_zero_of (-(toRadians 70)) (toRadians 70)
      (neg_nonpos.mpr toRadians_70_nonneg) toRadians_70_nonneg,
    heading, Real.sin_zero, Real.cos_zero, Vec2.smul, Vec2.add,
    Prod.mk.injEq, Rocket.mk.injEq, Transform.mk.injEq, Vec2.mk.injEq]

theorem handle_accel_up_eval (s0 y : ℝ) (hs : s0 < 200) :
    handle_rocket_movement 1 cKeysAccel (Rocket.mk s0 200 (Vec2.mk 0 0) 0 20)
      (Transform.mk (Vec2.mk 0 y) 0) =
      (Rocket.mk (s0 + 50) 200 (Vec2.mk 0 (s0 + 50)) 0 20,
        Transform.mk (Vec2.mk 0 (y + (s0 + 50))) 0) := by
  simp only [handle_rocket_movement, cKeysAccel]
  rw [if_pos hs]
  norm_num [rclamp_zero_of (-(toRadians 70)) (toRadians 70)
      (neg_nonpos.mpr toRadians_70_nonneg) toRadians_70_nonneg,
    heading, Real.sin_zero, Real.cos_zero, Vec2.smul, Vec2.add,
    Prod.mk.injEq, Rocket.mk.injEq, Transform.mk.injEq, Vec2.mk.injEq]

theorem gravitational_pull_eval_150 :
    gravitational_pull 1 (Rocket.mk 50 200 (Vec2.mk 0 50) 0 20)
      (Transform.mk (Vec2.mk 0 150) 0) =
      (Rocket.mk 50 200 (Vec2.mk 0 (-200)) 0 20,
        Transform.mk (Vec2.mk 0 (-50)) 0) := by
  have hsub : Vec2.zero.sub (Vec2.mk (0:ℝ) 150) = Vec2.mk 0 (-150) := by
    rw [Vec2.zero, Vec2.sub]
    norm_num
  have hlen : (Vec2.mk (0:ℝ) (-150)).length = 150 := by
    rw [Vec2.length_mk_zero_left, abs_of_nonpos (by norm_num : (-150:ℝ) ≤ 0)]
    norm_num
  have hnorm : (Vec2.mk (0:ℝ) (-150)).normalize = Vec2.mk 0 (-1) := by
    rw [Vec2.normalize, hlen, Vec2.smul]
    norm_num
  have hacc : (Vec2.mk (0:ℝ) (-1)).smul (G_FORCE / ((150:ℝ) * 150)) =
      Vec2.mk 0 (-50000/9) := by
    rw [G_FORCE, Vec2.smul]
    norm_num
  have hacc1 : (Vec2.mk (0:ℝ) (-50000/9)).smul 1 = Vec2.mk 0 (-50000/9) := by
    rw [Vec2.smul]
    norm_num
  have hadd : (Vec2.mk (0:ℝ) 50).add (Vec2.mk 0 (-50000/9)) =
      Vec2.mk 0 (-49550/9) := by
    rw [Vec2.add]
    norm_num
  have hlen2 : (Vec2.mk (0:ℝ) (-49550/9)).length = 49550/9 := by
    rw [Vec2.length_mk_zero_left, abs_of_nonpos (by norm_num : (-49550/9:ℝ) ≤ 0)]
    norm_num
  have hnorm2 : (Vec2.mk (0:ℝ) (-49550/9)).normalize = Vec2.mk 0 (-1) := by
    rw [Vec2.normalize, hlen2, Vec2.smul]
    norm_num
  have hvel : (Vec2.mk (0:ℝ) (-1)).smul 200 = Vec2.mk 0 (-200) := by
    rw [Vec2.smul]
    norm_num
  have hps : (Vec2.mk (0:ℝ) (-200)).smul 1 = Vec2.mk 0 (-200) := by
    rw [Vec2.smul]
    norm_num
  have hpadd : (Vec2.mk (0:ℝ) 150).add (Vec2.mk 0 (-200)) = Vec2.mk 0 (-50) := by
    rw [Vec2.add]
    norm_num
  simp only [gravitational_pull]
  rw [hsub, hlen]
  rw [if_neg (by norm_num : ¬ (150:ℝ) < 65)]
  rw [hnorm, hacc, hacc1, hadd]
  rw [if_pos (by rw [hlen2]; norm_num : (Vec2.mk (0:ℝ) (-49550/9)).length > 200)]
  rw [hnorm2, hvel, hps, hpadd]

/-! ### Claim theorems -/

/-- C5: for every frame delta, key state and craft, after the rotation update of
`handle_rocket_movement` the craft's `rotation_speed` lies in the closed
interval `[-max_rotation_speed, max_rotation_speed]` (70 degrees in radians),
regardless of which rotate keys are held. -/
theorem C5_rotation_speed_clamped (dt : ℝ) (keys : Controls) (rocket : Rocket)
    (transform : Transform) :
    -(toRadians 70) ≤ (handle_rocket_movement dt keys rocket transform).1.rotation_speed ∧
      (handle_rocket_movement dt keys rocket transform).1.rotation_speed ≤ toRadians 70 := by
  have h0 : (0 : ℝ) ≤ toRadians 70 := toRadians_70_nonneg
  have hle : -(toRadians 70) ≤ toRadians 70 := by linarith
  constructor
  · exact lo_le_rclamp _ _ _ hle
  · exact rclamp_le_hi _ _ _

/-- C2: for every position, the acceleration computed by `gravitational_pull`
is the zero vector when the distance to the origin is below 65, and otherwise
equals `normalize(origin - p) * (G_FORCE / |origin - p|²)`, a positive multiple
of the vector from `p` to the origin (so it points toward the origin). -/
theorem C2_gravity_acceleration (p : Vec2) :
    (p.length < 65 → gravity_acceleration p = Vec2.zero) ∧
      (65 ≤ p.length →
        gravity_acceleration p =
            (Vec2.zero.sub p).normalize.smul (G_FORCE / (p.length * p.length)) ∧
          ∃ c : ℝ, 0 < c ∧ gravity_acceleration p = (Vec2.zero.sub p).smul c) := by
  constructor
  · intro h
    simp only [gravity_acceleration, Vec2.length_zero_sub]
    rw [if_pos h]
  · intro h
    have hpos : 0 < p.length := by linarith
    have hnlt : ¬ (Vec2.zero.sub p).length < 65 := by
      rw [Vec2.length_zero_sub]
      linarith
    have heq : gravity_acceleration p =
        (Vec2.zero.sub p).normalize.smul (G_FORCE / (p.length * p.length)) := by
      simp only [gravity_acceleration, Vec2.length_zero_sub]
      rw [if_neg (by rw [Vec2.length_zero_sub] at hnlt; exact hnlt)]
    refine ⟨heq, (1 / p.length) * (G_FORCE / (p.length * p.length)), ?_, ?_⟩
    · rw [G_FORCE]
      positivity
    · rw [heq, Vec2.normalize, Vec2.smul_smul, Vec2.length_zero_sub]

/-- Witness for C2: at `(0, 40)` (distance 40, inside the cutoff) the
acceleration is zero; at `(0, 100)` (distance 100) it is a positive multiple of
the direction toward the origin. -/
theorem C2_witness :
    (Vec2.mk 0 40).length < 65 ∧ gravity_acceleration (Vec2.mk 0 40) = Vec2.zero ∧
      65 ≤ (Vec2.mk 0 100).length ∧
      ∃ c : ℝ, 0 < c ∧
        gravity_acceleration (Vec2.mk 0 100) =
          (Vec2.zero.sub (Vec2.mk 0 100)).smul c := by
  have h40 : (Vec2.mk 0 40).length < 65 := by
    rw [Vec2.length_mk_zero_left, abs_of_nonneg (by norm_num)]
    norm_num
  have h100 : (65 : ℝ) ≤ (Vec2.mk 0 100).length := by
    rw [Vec2.length_mk_zero_left, abs_of_nonneg (by norm_num)]
    norm_num
  exact ⟨h40, (C2_gravity_acceleration (Vec2.mk 0 40)).1 h40, h100,
    ((C2_gravity_acceleration (Vec2.mk 0 100)).2 h100).2⟩

/-- C4 (amended): while accelerate is held, speed increases by exactly
`50 * dt` when it is below `max_speed` and is left unchanged otherwise, so it
can end the frame up to `50 * dt` above `max_speed` (but no more, when it
started at or below `max_speed`); while released, speed decreases by exactly
`50 * dt` when it is positive and is left unchanged otherwise, so it can end
the frame below zero, but not below `-(50 * dt)` when it started nonnegative. -/
theorem C4_speed_update (dt : ℝ) (keys : Controls) (rocket : Rocket)
    (transform : Transform) (hdt : 0 ≤ dt) :
    (keys.accelerate = true → rocket.speed < rocket.max_speed →
        (handle_rocket_movement dt keys rocket transform).1.speed =
          rocket.speed + 50 * dt) ∧
      (keys.accelerate = true → rocket.max_speed ≤ rocket.speed →
        (handle_rocket_movement dt keys rocket transform).1.speed = rocket.speed) ∧
      (keys.accelerate = true → rocket.speed ≤ rocket.max_speed →
        (handle_rocket_movement dt keys rocket transform).1.speed ≤
          rocket.max_speed + 50 * dt) ∧
      (keys.accelerate = false → 0 < rocket.speed →
        (handle_rocket_movement dt keys rocket transform).1.speed =
          rocket.speed - 50 * dt) ∧
      (keys.accelerate = false → rocket.speed ≤ 0 →
        (handle_rocket_movement dt keys rocket transform).1.speed = rocket.speed) ∧
      (keys.accelerate = false → 0 ≤ rocket.speed →
        -(50 * dt) ≤ (handle_rocket_movement dt keys rocket transform).1.speed) := by
  have hs : (handle_rocket_movement dt keys rocket transform).1.speed =
      (if keys.accelerate then
        (if rocket.speed < rocket.max_speed then rocket.speed + 50 * dt else rocket.speed)
      else
        (if rocket.speed > 0 then rocket.speed - 50 * dt else rocket.speed)) := rfl
  refine ⟨?_, ?_, ?_, ?_, ?_, ?_⟩
  · intro ha h
    rw [hs, ha, if_pos rfl, if_pos h]
  · intro ha h
    rw [hs, ha, if_pos rfl, if_neg (not_lt.mpr h)]
  · intro ha h
    rw [hs, ha, if_pos rfl]
    by_cases hc : rocket.speed < rocket.max_speed
    · rw [if_pos hc]
      linarith
    · rw [if_neg hc]
      linarith
  · intro ha h
    rw [hs, ha]
    simp only [Bool.false_eq_true, if_false]
    rw [if_pos h]
  · intro ha h
    rw [hs, ha]
    simp only [Bool.false_eq_true, if_false]
    rw [if_neg (not_lt.mpr h)]
  · intro ha h
    rw [hs, ha]
    simp only [Bool.false_eq_true, if_false]
    by_cases hc : rocket.speed > 0
    · rw [if_pos hc]
      linarith
    · rw [if_neg hc]
      linarith

/-- Witness for C4 (amended): a craft at speed 199 with `max_speed` 200 and
the accelerate key held gains exactly `50 * dt`, staying within
`max_speed + 50 * dt`. -/
theorem C4_witness :
    (0 : ℝ) ≤ 1 ∧ cKeysAccel.accelerate = true ∧
      cRocket199.speed < cRocket199.max_speed ∧
      (handle_rocket_movement 1 cKeysAccel cRocket199 cT100).1.speed =
        cRocket199.speed + 50 * 1 ∧
      (handle_rocket_movement 1 cKeysAccel cRocket199 cT100).1.speed ≤
        cRocket199.max_speed + 50 * 1 := by
  have h1 : (0 : ℝ) ≤ 1 := by norm_num
  have h2 : cKeysAccel.accelerate = true := rfl
  have h3 : cRocket199.speed < cRocket199.max_speed := by
    rw [cRocket199]
    norm_num
  exact ⟨h1, h2, h3, (C4_speed_update 1 cKeysAccel cRocket199 cT100 h1).1 h2 h3,
    (C4_speed_update 1 cKeysAccel cRocket199 cT100 h1).2.2.1 h2 (le_of_lt h3)⟩

/-- Counterexample for C4 as stated: with `max_speed = 200`, a craft at speed
199 with accelerate held ends the frame at `249 > max_speed`, and a craft at
speed 1 with accelerate released ends the frame at `-49 < 0` (`dt = 1`). -/
theorem C4_counterexample :
    cRocket199.max_speed <
        (handle_rocket_movement 1 cKeysAccel cRocket199 cT100).1.speed ∧
      (handle_rocket_movement 1 cKeysNone cRocketOne cT100).1.speed < 0 := by
  have ha : (handle_rocket_movement 1 cKeysAccel cRocket199 cT100).1.speed =
      (if (199 : ℝ) < 200 then (199 : ℝ) + 50 * 1 else 199) := rfl
  have hb : (handle_rocket_movement 1 cKeysNone cRocketOne cT100).1.speed =
      (if (1 : ℝ) > 0 then (1 : ℝ) - 50 * 1 else 1) := rfl
  rw [ha, hb, if_pos (by norm_num : (199 : ℝ) < 200), if_pos (by norm_num : (1 : ℝ) > 0)]
  constructor
  · rw [cRocket199]
    norm_num
  · norm_num

/-- C9: with fewer than two rockets alive, the collision handling of
`update_rocket_status` is a no-op: it despawns nothing and emits no effect
trigger, both for `update_collisions` itself and within a full
`update_rocket_status` run. -/
theorem C9_pairwise_noop (dt : ℝ) (input : Nat → Controls)
    (rockets : List RocketEnt) (h : rockets.length < 2) :
    update_collisions rockets = FrameOutput.mk [] [] ∧
      (update_rocket_status dt input rockets).1 = FrameOutput.mk [] [] := by
  have h1 : update_collisions rockets = FrameOutput.mk [] [] := by
    cases rockets with
    | nil => rfl
    | cons a t =>
      cases t with
      | nil => rfl
      | cons b r =>
        simp only [List.length_cons] at h
        omega
  exact ⟨h1, h1⟩

/-- Witness for C9: a frame with a single rocket produces no despawn and no
trigger. -/
theorem C9_witness :
    [cEntOrigin].length < 2 ∧
      update_collisions [cEntOrigin] = FrameOutput.mk [] [] := by
  have h : [cEntOrigin].length < 2 := by
    simp
  exact ⟨h, (C9_pairwise_noop 1 (fun _ => cKeysNone) [cEntOrigin] h).1⟩

/-- C10: with at most one rocket alive, `update_rocket_status` skips all
collision handling — including the craft-sun check — so a lone craft
overlapping the sun is not despawned and no trigger fires, while its movement
integration still runs. -/
theorem C10_lone_craft_skips_sun_check (dt : ℝ) (input : Nat → Controls)
    (e : RocketEnt)
    (_hsun : check_sun_collision e.transform (e.rocket.radius_collision + 30)) :
    (update_rocket_status dt input [e]).1 = FrameOutput.mk [] [] ∧
      (update_rocket_status dt input [e]).2 =
        [RocketEnt.mk e.id
          (handle_rocket_movement dt (input e.id) e.rocket e.transform).1
          (handle_rocket_movement dt (input e.id) e.rocket e.transform).2] := by
  exact ⟨rfl, rfl⟩

/-- Witness for C10: a lone rocket sitting exactly on the sun (distance 0,
well inside `radius_collision + 30`) is not despawned, and no trigger fires. -/
theorem C10_witness :
    check_sun_collision cEntOrigin.transform (cEntOrigin.rocket.radius_collision + 30) ∧
      (update_rocket_status 1 (fun _ => cKeysNone) [cEntOrigin]).1 =
        FrameOutput.mk [] [] := by
  have hsun : check_sun_collision cEntOrigin.transform
      (cEntOrigin.rocket.radius_collision + 30) := by
    show (Vec2.mk 0 0).dist (Vec2.mk 0 0) < cRocketZero.radius_collision + 30
    rw [Vec2.dist_self, cRocketZero]
    norm_num
  exact ⟨hsun,
    (C10_lone_craft_skips_sun_check 1 (fun _ => cKeysNone) cEntOrigin hsun).1⟩

/-- C6: a craft-sun collision for the first rocket is detected exactly when
its distance to the origin is below `radius_collision + 30` (the sun-radius
margin), and when it alone is detected, that rocket is despawned and exactly
one effect trigger is emitted, at the rocket's current position. -/
theorem C6_sun_collision (a b : RocketEnt) (rest : List RocketEnt) :
    (check_sun_collision a.transform (a.rocket.radius_collision + 30) ↔
        a.transform.position.dist Vec2.zero < a.rocket.radius_collision + 30) ∧
      (check_sun_collision a.transform (a.rocket.radius_collision + 30) →
        ¬ check_sun_collision b.transform (b.rocket.radius_collision + 30) →
        ¬ check_collision a.transform b.transform a.rocket.radius_collision →
        update_collisions (a :: b :: rest) =
          FrameOutput.mk [a.id] [a.transform.position]) := by
  constructor
  · exact Iff.rfl
  · intro h1 h2 h3
    simp only [update_collisions, if_pos h1, if_neg h2, if_neg h3]
    simp

/-- Witness for C6: `cEntSun` at distance 40 from the origin (inside
`20 + 30 = 50`) collides with the sun, its partner `cEntFar` at distance 300
does not, the two do not collide with each other, and the frame output is
exactly one despawn and one trigger at `cEntSun`'s position. -/
theorem C6_witness :
    check_sun_collision cEntSun.transform (cEntSun.rocket.radius_collision + 30) ∧
      ¬ check_sun_collision cEntFar.transform (cEntFar.rocket.radius_collision + 30) ∧
      ¬ check_collision cEntSun.transform cEntFar.transform
          cEntSun.rocket.radius_collision ∧
      update_collisions [cEntSun, cEntFar] =
        FrameOutput.mk [cEntSun.id] [cEntSun.transform.position] := by
  have hd1 : (Vec2.mk (0:ℝ) 40).dist (Vec2.mk 0 0) = 40 := by
    have hsub : (Vec2.mk (0:ℝ) 40).sub (Vec2.mk 0 0) = Vec2.mk 0 40 := by
      rw [Vec2.sub]
      norm_num
    rw [Vec2.dist, hsub, Vec2.length_mk_zero_left, abs_of_nonneg (by norm_num)]
  have hd2 : (Vec2.mk (0:ℝ) 300).dist (Vec2.mk 0 0) = 300 := by
    have hsub : (Vec2.mk (0:ℝ) 300).sub (Vec2.mk 0 0) = Vec2.mk 0 300 := by
      rw [Vec2.sub]
      norm_num
    rw [Vec2.dist, hsub, Vec2.length_mk_zero_left, abs_of_nonneg (by norm_num)]
  have hd3 : (Vec2.mk (0:ℝ) 40).dist (Vec2.mk 0 300) = 260 := by
    have hsub : (Vec2.mk (0:ℝ) 40).sub (Vec2.mk 0 300) = Vec2.mk 0 (-260) := by
      rw [Vec2.sub]
      norm_num
    rw [Vec2.dist, hsub, Vec2.length_mk_zero_left, abs_of_nonpos (by norm_num)]
    norm_num
  have h1 : check_sun_collision cEntSun.transform
      (cEntSun.rocket.radius_collision + 30) := by
    show (Vec2.mk (0:ℝ) 40).dist (Vec2.mk 0 0) < cRocketZero.radius_collision + 30
    rw [hd1, cRocketZero]
    norm_num
  have h2 : ¬ check_sun_collision cEntFar.transform
      (cEntFar.rocket.radius_collision + 30) := by
    show ¬ (Vec2.mk (0:ℝ) 300).dist (Vec2.mk 0 0) < cRocketZero.radius_collision + 30
    rw [hd2, cRocketZero]
    norm_num
  have h3 : ¬ check_collision cEntSun.transform cEntFar.transform
      cEntSun.rocket.radius_collision := by
    show ¬ (Vec2.mk (0:ℝ) 40).dist (Vec2.mk 0 300) < cRocketZero.radius_collision
    rw [hd3, cRocketZero]
    norm_num
  exact ⟨h1, h2, h3, (C6_sun_collision cEntSun cEntFar []).2 h1 h2 h3⟩

/-- C7: the craft-craft test compares the distance of the two rockets against
the first rocket's collision radius only. When it fires, every rocket of the
query is despawned; when the distance is not below the first rocket's radius,
no third rocket is despawned (whatever the second rocket's radius is). -/
theorem C7_craft_craft_first_radius (a b : RocketEnt) (rest : List RocketEnt) :
    (check_collision a.transform b.transform a.rocket.radius_collision ↔
        a.transform.position.dist b.transform.position < a.rocket.radius_collision) ∧
      (a.transform.position.dist b.transform.position < a.rocket.radius_collision →
        ∀ e ∈ a :: b :: rest, e.id ∈ (update_collisions (a :: b :: rest)).despawned) ∧
      (¬ a.transform.position.dist b.transform.position < a.rocket.radius_collision →
        ∀ e ∈ rest, e.id ∈ (update_collisions (a :: b :: rest)).despawned →
          e.id = a.id ∨ e.id = b.id) := by
  refine ⟨Iff.rfl, ?_, ?_⟩
  · intro h e he
    have h' : check_collision a.transform b.transform a.rocket.radius_collision := h
    simp only [update_collisions, if_pos h']
    apply List.mem_append_right
    simp only [List.mem_cons] at he
    rcases he with rfl | rfl | he
    · simp
    · simp
    · simp only [List.mem_cons, List.mem_map]
      exact Or.inr (Or.inr ⟨e, he, rfl⟩)
  · intro h e _he hid
    have h' : ¬ check_collision a.transform b.transform a.rocket.radius_collision := h
    simp only [update_collisions, if_neg h', List.append_nil] at hid
    rw [List.mem_append] at hid
    rcases hid with hid | hid
    · left
      split at hid
      · simpa using hid
      · simp at hid
    · right
      split at hid
      · simpa using hid
      · simp at hid

/-- Witness for C7: `cEntB` sits 10 units from `cEntA`, inside `cEntA`'s
radius of 20 (though outside `cEntB`'s own radius of 5), so both rockets are
despawned. -/
theorem C7_witness :
    cEntA.transform.position.dist cEntB.transform.position <
        cEntA.rocket.radius_collision ∧
      cEntA.id ∈ (update_collisions [cEntA, cEntB]).despawned ∧
      cEntB.id ∈ (update_collisions [cEntA, cEntB]).despawned := by
  have hd : (Vec2.mk (200:ℝ) 0).dist (Vec2.mk 210 0) = 10 := by
    have hsub : (Vec2.mk (200:ℝ) 0).sub (Vec2.mk 210 0) = Vec2.mk (-10) 0 := by
      rw [Vec2.sub]
      norm_num
    rw [Vec2.dist, hsub, Vec2.length_mk_zero_right, abs_of_nonpos (by norm_num)]
    norm_num
  have h : cEntA.transform.position.dist cEntB.transform.position <
      cEntA.rocket.radius_collision := by
    show (Vec2.mk (200:ℝ) 0).dist (Vec2.mk 210 0) < cRocketZero.radius_collision
    rw [hd, cRocketZero]
    norm_num
  exact ⟨h, (C7_craft_craft_first_radius cEntA cEntB []).2.1 h cEntA (by simp),
    (C7_craft_craft_first_radius cEntA cEntB []).2.1 h cEntB (by simp)⟩

/-- C8: two rockets at the identical position with collision radius 20
produce a craft-craft detection (distance 0 < 20), both are despawned, and the
craft-craft handling emits two effect triggers, one at each rocket's position
(they close the frame's trigger list). -/
theorem C8_identical_position (a b : RocketEnt) (rest : List RocketEnt)
    (hpos : a.transform.position = b.transform.position)
    (hra : a.rocket.radius_collision = 20)
    (_hrb : b.rocket.radius_collision = 20) :
    check_collision a.transform b.transform a.rocket.radius_collision ∧
      a.id ∈ (update_collisions (a :: b :: rest)).despawned ∧
      b.id ∈ (update_collisions (a :: b :: rest)).despawned ∧
      ∃ pre, (update_collisions (a :: b :: rest)).triggers =
        pre ++ [a.transform.position, b.transform.position] := by
  have hcc : check_collision a.transform b.transform a.rocket.radius_collision := by
    show a.transform.position.dist b.transform.position < a.rocket.radius_collision
    rw [hpos, Vec2.dist_self, hra]
    norm_num
  refine ⟨hcc, ?_, ?_, ?_⟩
  · simp only [update_collisions, if_pos hcc]
    simp
  · simp only [update_collisions, if_pos hcc]
    simp
  · simp only [update_collisions, if_pos hcc]
    exact ⟨_, rfl⟩

/-- Witness for C8: `cEntA` and `cEntD` both sit at `(200, 0)` with radius 20;
the collision is detected, both entity ids are despawned and the trigger list
ends with the two positions. -/
theorem C8_witness :
    cEntA.transform.position = cEntD.transform.position ∧
      cEntA.rocket.radius_collision = 20 ∧
      cEntD.rocket.radius_collision = 20 ∧
      cEntA.id ∈ (update_collisions [cEntA, cEntD]).despawned ∧
      cEntD.id ∈ (update_collisions [cEntA, cEntD]).despawned ∧
      ∃ pre, (update_collisions [cEntA, cEntD]).triggers =
        pre ++ [cEntA.transform.position, cEntD.transform.position] := by
  have hpos : cEntA.transform.position = cEntD.transform.position := rfl
  have hra : cEntA.rocket.radius_collision = 20 := rfl
  have hrb : cEntD.rocket.radius_collision = 20 := rfl
  have h := C8_identical_position cEntA cEntD [] hpos hra hrb
  exact ⟨hpos, hra, hrb, h.2.1, h.2.2.1, h.2.2.2⟩

/-- C1 (amended): at the end of a frame's integration, `|velocity| ≤ max_speed`
holds whenever the post-movement position is outside the 65-unit gravity
cutoff (so the gravity step re-clamps), given a nonnegative `max_speed`.
Inside the cutoff the whole gravity step — including the re-clamp — is
skipped, the frame ends with the movement handler's state, and the speed
overshoot of the thrust update can leave `|velocity| > max_speed`. -/
theorem C1_velocity_clamped_outside_cutoff (dt : ℝ) (keys : Controls)
    (rocket : Rocket) (transform : Transform) (hms : 0 ≤ rocket.max_speed) :
    (65 ≤ (handle_rocket_movement dt keys rocket transform).2.position.length →
        (frameStep dt keys rocket transform).1.velocity.length ≤ rocket.max_speed) ∧
      ((handle_rocket_movement dt keys rocket transform).2.position.length < 65 →
        frameStep dt keys rocket transform =
          handle_rocket_movement dt keys rocket transform) := by
  constructor
  · intro hfar
    exact gravitational_pull_far_velocity dt
      (handle_rocket_movement dt keys rocket transform).1
      (handle_rocket_movement dt keys rocket transform).2 hms hfar
  · intro hnear
    exact gravitational_pull_near dt
      (handle_rocket_movement dt keys rocket transform).1
      (handle_rocket_movement dt keys rocket transform).2 hnear

/-- Witness for C1 (amended): a coasting craft 100 units above the origin is
outside the cutoff and ends the frame with `|velocity| ≤ max_speed = 200`. -/
theorem C1_witness :
    (0 : ℝ) ≤ cRocketZero.max_speed ∧
      65 ≤ (handle_rocket_movement 1 cKeysNone cRocketZero cT100).2.position.length ∧
      (frameStep 1 cKeysNone cRocketZero cT100).1.velocity.length ≤
        cRocketZero.max_speed := by
  have hms : (0 : ℝ) ≤ cRocketZero.max_speed := by
    rw [cRocketZero]
    norm_num
  have hfar : (65:ℝ) ≤
      (handle_rocket_movement 1 cKeysNone cRocketZero cT100).2.position.length := by
    rw [handle_none_rest_eval]
    show (65:ℝ) ≤ (Vec2.mk 0 100).length
    rw [Vec2.length_mk_zero_left, abs_of_nonneg (by norm_num : (0:ℝ) ≤ 100)]
    norm_num
  exact ⟨hms, hfar,
    (C1_velocity_clamped_outside_cutoff 1 cKeysNone cRocketZero cT100 hms).1 hfar⟩

/-- Counterexample for C1 as stated: a craft at speed 199 (`max_speed` 200)
holding accelerate reaches speed 249, and its movement lands it at the origin,
inside the 65-unit cutoff, so the gravity step's re-clamp is skipped and the
frame ends with `|velocity| = 249 > max_speed`. -/
theorem C1_counterexample :
    ¬ ((frameStep 1 cKeysAccel cRocket199 cTm249).1.velocity.length ≤
        (frameStep 1 cKeysAccel cRocket199 cTm249).1.max_speed) := by
  have heval : handle_rocket_movement 1 cKeysAccel cRocket199 cTm249 =
      (Rocket.mk 249 200 (Vec2.mk 0 249) 0 20, Transform.mk (Vec2.mk 0 0) 0) := by
    have h := handle_accel_up_eval 199 (-249) (by norm_num)
    rw [show cRocket199 = Rocket.mk 199 200 (Vec2.mk 0 0) 0 20 from rfl,
      show cTm249 = Transform.mk (Vec2.mk 0 (-249)) 0 from rfl, h]
    norm_num [Prod.mk.injEq, Rocket.mk.injEq, Transform.mk.injEq, Vec2.mk.injEq]
  have hnear : (handle_rocket_movement 1 cKeysAccel cRocket199 cTm249).2.position.length
      < 65 := by
    rw [heval]
    show (Vec2.mk (0:ℝ) 0).length < 65
    rw [Vec2.length_mk_zero_left, abs_of_nonneg le_rfl]
    norm_num
  have hstep : frameStep 1 cKeysAccel cRocket199 cTm249 =
      handle_rocket_movement 1 cKeysAccel cRocket199 cTm249 :=
    gravitational_pull_near 1 _ _ hnear
  rw [hstep, heval]
  show ¬ ((Vec2.mk (0:ℝ) 249).length ≤ (200:ℝ))
  rw [Vec2.length_mk_zero_left, abs_of_nonneg (by norm_num : (0:ℝ) ≤ 249)]
  norm_num

/-- C3 (amended): outside the 65-unit cutoff the frame performs two position
integrations — the movement handler advances the position by the
heading-derived velocity times `dt`, then the gravity step advances it again
by the re-clamped post-gravity velocity times `dt`; inside the cutoff only the
movement handler's integration happens. -/
theorem C3_two_position_integrations (dt : ℝ) (keys : Controls) (rocket : Rocket)
    (transform : Transform) :
    (65 ≤ (handle_rocket_movement dt keys rocket transform).2.position.length →
        (frameStep dt keys rocket transform).2.position =
          (transform.position.add
              ((handle_rocket_movement dt keys rocket transform).1.velocity.smul dt)).add
            ((frameStep dt keys rocket transform).1.velocity.smul dt)) ∧
      ((handle_rocket_movement dt keys rocket transform).2.position.length < 65 →
        (frameStep dt keys rocket transform).2.position =
          transform.position.add
            ((handle_rocket_movement dt keys rocket transform).1.velocity.smul dt)) := by
  constructor
  · intro hfar
    exact gravitational_pull_far_position dt
      (handle_rocket_movement dt keys rocket transform).1
      (handle_rocket_movement dt keys rocket transform).2 hfar
  · intro hnear
    have h := gravitational_pull_near dt
      (handle_rocket_movement dt keys rocket transform).1
      (handle_rocket_movement dt keys rocket transform).2 hnear
    show (gravitational_pull dt (handle_rocket_movement dt keys rocket transform).1
        (handle_rocket_movement dt keys rocket transform).2).2.position = _
    rw [h]
    rfl

/-- Witness for C3 (amended): a coasting craft 100 units above the origin is
outside the cutoff, and its final position decomposes into the two successive
integrations. -/
theorem C3_witness :
    65 ≤ (handle_rocket_movement 1 cKeysNone cRocketZero cT100).2.position.length ∧
      (frameStep 1 cKeysNone cRocketZero cT100).2.position =
        (cT100.position.add
            ((handle_rocket_movement 1 cKeysNone cRocketZero cT100).1.velocity.smul 1)).add
          ((frameStep 1 cKeysNone cRocketZero cT100).1.velocity.smul 1) := by
  have hfar : (65:ℝ) ≤
      (handle_rocket_movement 1 cKeysNone cRocketZero cT100).2.position.length := by
    rw [handle_none_rest_eval]
    show (65:ℝ) ≤ (Vec2.mk 0 100).length
    rw [Vec2.length_mk_zero_left, abs_of_nonneg (by norm_num : (0:ℝ) ≤ 100)]
    norm_num
  exact ⟨hfar, (C3_two_position_integrations 1 cKeysNone cRocketZero cT100).1 hfar⟩

/-- Counterexample for C3 as stated: for a craft that starts 100 units above
the origin at speed 0 with accelerate held (`dt = 1`), the frame ends at
`(0, -50)`, but "position advanced by exactly final velocity times dt" would
give `(0, 100) + (0, -200) = (0, -100)` — the movement handler had already
advanced the position once before the gravity step integrated it again. -/
theorem C3_counterexample :
    ¬ ((frameStep 1 cKeysAccel cRocketZero cT100).2.position =
        cT100.position.add
          ((frameStep 1 cKeysAccel cRocketZero cT100).1.velocity.smul 1)) := by
  have heval : handle_rocket_movement 1 cKeysAccel cRocketZero cT100 =
      (Rocket.mk 50 200 (Vec2.mk 0 50) 0 20, Transform.mk (Vec2.mk 0 150) 0) := by
    have h := handle_accel_up_eval 0 100 (by norm_num)
    rw [show cRocketZero = Rocket.mk 0 200 (Vec2.mk 0 0) 0 20 from rfl,
      show cT100 = Transform.mk (Vec2.mk 0 100) 0 from rfl, h]
    norm_num [Prod.mk.injEq, Rocket.mk.injEq, Transform.mk.injEq, Vec2.mk.injEq]
  have hstep : frameStep 1 cKeysAccel cRocketZero cT100 =
      (Rocket.mk 50 200 (Vec2.mk 0 (-200)) 0 20,
        Transform.mk (Vec2.mk 0 (-50)) 0) := by
    show gravitational_pull 1 (handle_rocket_movement 1 cKeysAccel cRocketZero cT100).1
        (handle_rocket_movement 1 cKeysAccel cRocketZero cT100).2 = _
    rw [heval]
    exact gravitational_pull_eval_150
  rw [hstep]
  show ¬ (Vec2.mk (0:ℝ) (-50) =
      (Vec2.mk (0:ℝ) 100).add ((Vec2.mk (0:ℝ) (-200)).smul 1))
  rw [Vec2.smul, Vec2.add]
  norm_num [Vec2.mk.injEq]

end
